import Mathlib

/-!
Shallow embedding of the dao-admin canister state engine (src/state.rs,
src/types.rs, src/lib.rs).  `BTreeMap` is modelled as an association list with
key-replacing insertion, the ambient nanosecond clock (`ic_cdk::api::time()`)
is passed explicitly as a `now : Nat` argument, `Principal` is its raw byte
representation, and `u64`/`i64` arithmetic is `Nat`/`Int` with explicit
reductions modulo `2 ^ 64` where overflow matters.
-/

namespace DaoAdmin

/-- A principal, modelled by its raw byte representation (`Principal.as_slice`). -/
abbrev Principal := List Nat

-- ===========================================================================
-- Association-list model of `BTreeMap`
-- ===========================================================================

/-- Keyed lookup, mirroring `BTreeMap::get`. -/
def mapLookup {K V : Type} [DecidableEq K] : List (K × V) → K → Option V
  | [], _ => none
  | (k2, v) :: rest, k => if k2 = k then some v else mapLookup rest k

/-- Key-replacing insertion, mirroring `BTreeMap::insert`. -/
def mapInsert {K V : Type} [DecidableEq K] : List (K × V) → K → V → List (K × V)
  | [], k, v => [(k, v)]
  | (k2, v2) :: rest, k, v =>
    if k2 = k then (k, v) :: rest else (k2, v2) :: mapInsert rest k v

/-- Key removal, mirroring `BTreeMap::remove`. -/
def mapRemove {K V : Type} [DecidableEq K] : List (K × V) → K → List (K × V)
  | [], _ => []
  | (k2, v2) :: rest, k =>
    if k2 = k then mapRemove rest k else (k2, v2) :: mapRemove rest k

/-- `map.entry(k).or_default().push(x)` for list-valued maps. -/
def mapEntryPush {K V : Type} [DecidableEq K]
    (m : List (K × List V)) (k : K) (x : V) : List (K × List V) :=
  match mapLookup m k with
  | some l => mapInsert m k (l ++ [x])
  | none => m ++ [(k, [x])]

/-- `Vec<(K, V)>::into_iter().collect::<BTreeMap<_, _>>()`. -/
def collectMap {K V : Type} [DecidableEq K] (l : List (K × V)) : List (K × V) :=
  l.foldl (fun m kv => mapInsert m kv.1 kv.2) []

-- ===========================================================================
-- types.rs
-- ===========================================================================

/-- `ContactSource` (src/types.rs). -/
inductive ContactSource where
  | Signup | Referral | Marketing | Event | Partner | Other
deriving DecidableEq

/-- `ContactStatus` (src/types.rs). -/
inductive ContactStatus where
  | Active | Inactive | Churned
deriving DecidableEq

/-- `Contact` record (src/types.rs). -/
structure Contact where
  id : Nat
  user_id : Option String
  email : String
  name : Option String
  company : Option String
  job_title : Option String
  interest_area : Option String
  source : ContactSource
  notes : Option String
  status : ContactStatus
  owner_id : Option Principal
  team_id : Option String
  created_at : Nat
  updated_at : Nat
deriving DecidableEq

/-- `CreateContactRequest` (src/types.rs). -/
structure CreateContactRequest where
  user_id : Option String
  email : String
  name : Option String
  company : Option String
  job_title : Option String
  interest_area : Option String
  source : Option ContactSource
  notes : Option String
deriving DecidableEq

/-- `DealStage` (src/types.rs). -/
inductive DealStage where
  | Lead | Qualified | Proposal | Negotiation | ClosedWon | ClosedLost
deriving DecidableEq

/-- `Deal` record (src/types.rs). -/
structure Deal where
  id : Nat
  contact_id : Nat
  name : String
  value : Option Nat
  stage : DealStage
  notes : Option String
  expected_close_date : Option Nat
  owner_id : Option Principal
  created_by : Option Principal
  created_at : Nat
  updated_at : Nat
deriving DecidableEq

/-- `TransactionType` (src/types.rs). -/
inductive TransactionType where
  | Income | Expense
deriving DecidableEq

/-- `TransactionCategory` (src/types.rs). -/
inductive TransactionCategory where
  | Subscription | Donation | Service | Infrastructure | Marketing | Payroll | Legal | Other
deriving DecidableEq

/-- `Transaction` record (src/types.rs).  `amount` is a `u64` in minor units. -/
structure Transaction where
  id : Nat
  transaction_type : TransactionType
  category : TransactionCategory
  amount : Nat
  currency : String
  description : String
  reference : Option String
  date : Nat
  created_at : Nat
deriving DecidableEq

/-- `UserActivity` (src/types.rs). -/
structure UserActivity where
  user_id : String
  action : String
  metadata : Option String
  timestamp : Nat
deriving DecidableEq

/-- `MetricsSnapshot` (src/types.rs). -/
structure MetricsSnapshot where
  total_users : Nat
  active_users_24h : Nat
  active_users_7d : Nat
  active_users_30d : Nat
  total_captures : Nat
  total_sprints : Nat
  total_workspaces : Nat
  timestamp : Nat
deriving DecidableEq

/-- `FeatureFlag` (src/types.rs).  `percentage` is a `u8`. -/
structure FeatureFlag where
  key : String
  enabled : Bool
  description : Option String
  percentage : Option Nat
  allowed_principals : List Principal
  updated_at : Nat
deriving DecidableEq

/-- `AdminPermission` (src/types.rs). -/
inductive AdminPermission where
  | ViewOwnContacts | ViewAllContacts | EditOwnContacts | EditAllContacts
  | DeleteOwnContacts | DeleteAllContacts
  | ViewOwnDeals | ViewAllDeals | EditOwnDeals | EditAllDeals
  | DeleteOwnDeals | DeleteAllDeals
  | ManageFeatureFlags | ViewAuditLogs
deriving DecidableEq

/-- `AuditLogEntry` (src/types.rs). -/
structure AuditLogEntry where
  id : Nat
  timestamp : Nat
  actor : Principal
  action : String
  target_type : String
  target_id : String
  details : Option String
deriving DecidableEq

/-- `ContactFilter` (src/types.rs). -/
structure ContactFilter where
  status : Option ContactStatus
  source : Option ContactSource
  search : Option String
deriving DecidableEq

/-- `DealFilter` (src/types.rs). -/
structure DealFilter where
  stage : Option DealStage
  contact_id : Option Nat
deriving DecidableEq

/-- `PaginationParams` (src/types.rs). -/
structure PaginationParams where
  offset : Option Nat
  limit : Option Nat
deriving DecidableEq

/-- `PaginatedResponse<T>` (src/types.rs). -/
structure PaginatedResponse (T : Type) where
  items : List T
  total : Nat
  offset : Nat
  limit : Nat
deriving DecidableEq

/-- `FinancialSummary` (src/types.rs): `net` is an `i64`, the rest `u64`. -/
structure FinancialSummary where
  total_income : Nat
  total_expenses : Nat
  net : Int
  mrr : Nat
  period_start : Nat
  period_end : Nat
deriving DecidableEq

-- ===========================================================================
-- state.rs : the `State` aggregate
-- ===========================================================================

/-- `State` (src/state.rs). -/
structure State where
  controllers : List Principal
  admins : List Principal
  authorized_canisters : List (String × Principal)
  admin_permissions : List (Principal × List AdminPermission)
  rate_limit_buckets : List (Principal × List Nat)
  contacts : List (Nat × Contact)
  contacts_by_email : List (String × Nat)
  contacts_by_user : List (String × Nat)
  next_contact_id : Nat
  deals : List (Nat × Deal)
  deals_by_contact : List (Nat × List Nat)
  next_deal_id : Nat
  transactions : List (Nat × Transaction)
  next_transaction_id : Nat
  activity_log : List UserActivity
  metrics_history : List MetricsSnapshot
  feature_flags : List (String × FeatureFlag)
  audit_log : List AuditLogEntry
  next_audit_log_id : Nat
deriving DecidableEq

/-- `State::new` (src/state.rs). -/
def State.new : State where
  controllers := []
  admins := []
  authorized_canisters := []
  admin_permissions := []
  rate_limit_buckets := []
  contacts := []
  contacts_by_email := []
  contacts_by_user := []
  next_contact_id := 1
  deals := []
  deals_by_contact := []
  next_deal_id := 1
  transactions := []
  next_transaction_id := 1
  activity_log := []
  metrics_history := []
  feature_flags := []
  audit_log := []
  next_audit_log_id := 1

-- ===========================================================================
-- Access control and permissions
-- ===========================================================================

/-- `State::is_controller` (src/state.rs). -/
def State.is_controller (s : State) (principal : Principal) : Bool :=
  decide (principal ∈ s.controllers)

/-- `State::is_admin` (src/state.rs). -/
def State.is_admin (s : State) (principal : Principal) : Bool :=
  decide (principal ∈ s.admins) || decide (principal ∈ s.controllers)

/-- `State::add_admin` (src/state.rs): appends only when absent. -/
def State.add_admin (s : State) (principal : Principal) : State :=
  if principal ∈ s.admins then s else { s with admins := s.admins ++ [principal] }

/-- `State::has_permission` (src/state.rs): controllers implicitly hold all
permissions; otherwise the explicit grant list is consulted. -/
def State.has_permission (s : State) (principal : Principal)
    (permission : AdminPermission) : Bool :=
  if principal ∈ s.controllers then true
  else
    match mapLookup s.admin_permissions principal with
    | some perms => decide (permission ∈ perms)
    | none => false

/-- `State::grant_permission` (src/state.rs): unconditionally pushes onto the
principal's permission `Vec` (via `entry(..).or_default().push(..)`). -/
def State.grant_permission (s : State) (principal : Principal)
    (permission : AdminPermission) : State :=
  { s with admin_permissions := mapEntryPush s.admin_permissions principal permission }

-- ===========================================================================
-- Rate limiting
-- ===========================================================================

/-- `RATE_LIMIT_WINDOW_NS` (src/state.rs): 60 seconds in nanoseconds. -/
def RATE_LIMIT_WINDOW_NS : Nat := 60 * 1000000000

/-- `RATE_LIMIT_MAX_CALLS` (src/state.rs). -/
def RATE_LIMIT_MAX_CALLS : Nat := 100

/-- `State::check_rate_limit` (src/state.rs).  `Nat` subtraction is exactly
`saturating_sub`.  The window purge happens before the limit check, so the
purged bucket is stored even on the error path (the entry is created by
`entry(..).or_default()` and mutated in place by `retain`). -/
def State.check_rate_limit (s : State) (caller : Principal) (now : Nat) :
    Except String Unit × State :=
  let window_start := now - RATE_LIMIT_WINDOW_NS
  let bucket := (mapLookup s.rate_limit_buckets caller).getD []
  let bucket := bucket.filter (fun ts => decide (window_start ≤ ts))
  if RATE_LIMIT_MAX_CALLS ≤ bucket.length then
    (Except.error "Rate limit exceeded: 100 calls per minute allowed, try again later",
     { s with rate_limit_buckets := mapInsert s.rate_limit_buckets caller bucket })
  else
    (Except.ok (),
     { s with rate_limit_buckets := mapInsert s.rate_limit_buckets caller (bucket ++ [now]) })

-- ===========================================================================
-- Contact operations
-- ===========================================================================

/-- Rust `String::to_lowercase`, modelled character-wise over the string's
character list (the emails and search strings handled here are ASCII; the
Unicode special cases of `to_lowercase` are immaterial to the claims). -/
def strToLower (s : String) : String :=
  String.mk (s.data.map Char.toLower)

/-- Rust `str::contains` on the already-lowercased haystack and needle. -/
def strContainsSub (hay pat : String) : Bool :=
  decide (List.IsInfix pat.toList hay.toList)

/-- `State::create_contact` (src/state.rs): assigns the next id, stamps
`owner_id = caller`, inserts into the primary mapping and unconditionally
(re)writes the lowercase-email index entry and, when a `user_id` is present,
the user index entry. -/
def State.create_contact (s : State) (request : CreateContactRequest)
    (caller : Principal) (now : Nat) : State × Contact :=
  let id := s.next_contact_id
  let contact : Contact :=
    { id := id
      user_id := request.user_id
      email := request.email
      name := request.name
      company := request.company
      job_title := request.job_title
      interest_area := request.interest_area
      source := request.source.getD ContactSource.Signup
      notes := request.notes
      status := ContactStatus.Active
      owner_id := some caller
      team_id := none
      created_at := now
      updated_at := now }
  ({ s with
      next_contact_id := s.next_contact_id + 1
      contacts := mapInsert s.contacts id contact
      contacts_by_email := mapInsert s.contacts_by_email (strToLower request.email) id
      contacts_by_user :=
        match request.user_id with
        | some uid => mapInsert s.contacts_by_user uid id
        | none => s.contacts_by_user },
   contact)

/-- `State::get_contact` (src/state.rs). -/
def State.get_contact (s : State) (id : Nat) : Option Contact :=
  mapLookup s.contacts id

/-- `State::get_contact_by_email` (src/state.rs): lowercases the query, then
chains the email index into the primary mapping. -/
def State.get_contact_by_email (s : State) (email : String) : Option Contact :=
  (mapLookup s.contacts_by_email (strToLower email)).bind (fun id => mapLookup s.contacts id)

/-- The field-patching block of `State::update_contact` (src/state.rs): each
`Some` in the request overwrites the field, each `None` leaves it untouched;
`updated_at` is always rewritten. -/
def applyContactUpdate (contact : Contact)
    (name company job_title interest_area notes : Option String)
    (status : Option ContactStatus) (now : Nat) : Contact :=
  let contact := match name with | some n => { contact with name := some n } | none => contact
  let contact := match company with | some c => { contact with company := some c } | none => contact
  let contact := match job_title with | some j => { contact with job_title := some j } | none => contact
  let contact := match interest_area with | some i => { contact with interest_area := some i } | none => contact
  let contact := match notes with | some n => { contact with notes := some n } | none => contact
  let contact := match status with | some st => { contact with status := st } | none => contact
  { contact with updated_at := now }

/-- `State::update_contact` (src/state.rs): partial update of the six
updatable fields; always bumps `updated_at`. -/
def State.update_contact (s : State) (id : Nat)
    (name company job_title interest_area notes : Option String)
    (status : Option ContactStatus) (now : Nat) : State × Option Contact :=
  match mapLookup s.contacts id with
  | none => (s, none)
  | some contact =>
    let contact := applyContactUpdate contact name company job_title interest_area notes status now
    ({ s with contacts := mapInsert s.contacts id contact }, some contact)

/-- `State::delete_contact` (src/state.rs): removes the record, its email and
user index entries, and cascade-deletes the deals listed under it. -/
def State.delete_contact (s : State) (id : Nat) : State × Option Contact :=
  match mapLookup s.contacts id with
  | none => (s, none)
  | some contact =>
    let contacts := mapRemove s.contacts id
    let byEmail := mapRemove s.contacts_by_email (strToLower contact.email)
    let byUser :=
      match contact.user_id with
      | some uid => mapRemove s.contacts_by_user uid
      | none => s.contacts_by_user
    let deals :=
      match mapLookup s.deals_by_contact id with
      | some deal_ids => deal_ids.foldl (fun m did => mapRemove m did) s.deals
      | none => s.deals
    ({ s with
        contacts := contacts
        contacts_by_email := byEmail
        contacts_by_user := byUser
        deals := deals
        deals_by_contact := mapRemove s.deals_by_contact id },
     some contact)

/-- The `if let Some(ref f) = filter` block of `State::get_contacts`
(src/state.rs): the status, source and search predicates applied as a
conjunction, in the declared order. -/
def applyContactFilter (filter : Option ContactFilter) (contacts : List Contact) :
    List Contact :=
  match filter with
  | some f =>
    let cs : List Contact :=
      match f.status with
      | some st => contacts.filter (fun c => decide (c.status = st))
      | none => contacts
    let cs : List Contact :=
      match f.source with
      | some src => cs.filter (fun c => decide (c.source = src))
      | none => cs
    match f.search with
    | some search =>
      let search_lower := strToLower search
      cs.filter (fun c =>
        strContainsSub (strToLower c.email) search_lower
          || (match c.name with
              | some n => strContainsSub (strToLower n) search_lower
              | none => false)
          || (match c.company with
              | some co => strContainsSub (strToLower co) search_lower
              | none => false))
    | none => cs
  | none => contacts

/-- `State::get_contacts` (src/state.rs): RLS gate, then owner restriction,
then the filter conjunction, then `skip(offset).take(limit)` pagination with
`total` taken before pagination. -/
def State.get_contacts (s : State) (filter : Option ContactFilter)
    (pagination : PaginationParams) (caller : Principal) :
    PaginatedResponse Contact :=
  let has_view_all := s.has_permission caller AdminPermission.ViewAllContacts
  let has_view_own := s.has_permission caller AdminPermission.ViewOwnContacts
  if !has_view_all && !has_view_own then
    { items := []
      total := 0
      offset := pagination.offset.getD 0
      limit := pagination.limit.getD 50 }
  else
    let contacts := s.contacts.map Prod.snd
    let contacts :=
      if !has_view_all then
        contacts.filter (fun c => decide (c.owner_id = some caller))
      else contacts
    let contacts : List Contact := applyContactFilter filter contacts
    let total := contacts.length
    let offset := pagination.offset.getD 0
    let limit := pagination.limit.getD 50
    { items := (contacts.drop offset).take limit
      total := total
      offset := offset
      limit := limit }

-- ===========================================================================
-- Deal operations
-- ===========================================================================

/-- `State::create_deal` (src/state.rs): referential-integrity check at
creation time, stamps `owner_id = created_by = caller`, inserts into the
primary mapping and the contact→deal index. -/
def State.create_deal (s : State) (contact_id : Nat) (name : String)
    (value : Option Nat) (notes : Option String)
    (expected_close_date : Option Nat) (caller : Principal) (now : Nat) :
    Except String (State × Deal) :=
  if (mapLookup s.contacts contact_id).isNone then
    Except.error "Contact not found"
  else
    let id := s.next_deal_id
    let deal : Deal :=
      { id := id
        contact_id := contact_id
        name := name
        value := value
        stage := DealStage.Lead
        notes := notes
        expected_close_date := expected_close_date
        owner_id := some caller
        created_by := some caller
        created_at := now
        updated_at := now }
    Except.ok
      ({ s with
          next_deal_id := s.next_deal_id + 1
          deals := mapInsert s.deals id deal
          deals_by_contact := mapEntryPush s.deals_by_contact contact_id id },
       deal)

/-- The field-patching block of `State::update_deal` (src/state.rs). -/
def applyDealUpdate (deal : Deal) (name : Option String) (value : Option Nat)
    (stage : Option DealStage) (notes : Option String)
    (expected_close_date : Option Nat) (now : Nat) : Deal :=
  let deal := match name with | some n => { deal with name := n } | none => deal
  let deal := match value with | some v => { deal with value := some v } | none => deal
  let deal := match stage with | some st => { deal with stage := st } | none => deal
  let deal := match notes with | some n => { deal with notes := some n } | none => deal
  let deal := match expected_close_date with | some d => { deal with expected_close_date := some d } | none => deal
  { deal with updated_at := now }

/-- `State::update_deal` (src/state.rs): partial update of the five updatable
fields; always bumps `updated_at`. -/
def State.update_deal (s : State) (id : Nat) (name : Option String)
    (value : Option Nat) (stage : Option DealStage) (notes : Option String)
    (expected_close_date : Option Nat) (now : Nat) : State × Option Deal :=
  match mapLookup s.deals id with
  | none => (s, none)
  | some deal =>
    let deal := applyDealUpdate deal name value stage notes expected_close_date now
    ({ s with deals := mapInsert s.deals id deal }, some deal)

/-- The `if let Some(ref f) = filter` block of `State::get_deals`
(src/state.rs). -/
def applyDealFilter (filter : Option DealFilter) (deals : List Deal) : List Deal :=
  match filter with
  | some f =>
    let ds : List Deal :=
      match f.stage with
      | some st => deals.filter (fun d => decide (d.stage = st))
      | none => deals
    match f.contact_id with
    | some cid => ds.filter (fun d => decide (d.contact_id = cid))
    | none => ds
  | none => deals

/-- `State::get_deals` (src/state.rs): same RLS shape as `get_contacts`. -/
def State.get_deals (s : State) (filter : Option DealFilter)
    (pagination : PaginationParams) (caller : Principal) :
    PaginatedResponse Deal :=
  let has_view_all := s.has_permission caller AdminPermission.ViewAllDeals
  let has_view_own := s.has_permission caller AdminPermission.ViewOwnDeals
  if !has_view_all && !has_view_own then
    { items := []
      total := 0
      offset := pagination.offset.getD 0
      limit := pagination.limit.getD 50 }
  else
    let deals := s.deals.map Prod.snd
    let deals :=
      if !has_view_all then
        deals.filter (fun d => decide (d.owner_id = some caller))
      else deals
    let deals : List Deal := applyDealFilter filter deals
    let total := deals.length
    let offset := pagination.offset.getD 0
    let limit := pagination.limit.getD 50
    { items := (deals.drop offset).take limit
      total := total
      offset := offset
      limit := limit }

-- ===========================================================================
-- Transactions and financial summary
-- ===========================================================================

/-- `2 ^ 64`, the modulus of `u64` arithmetic. -/
def U64MOD : Nat := 2 ^ 64

/-- Rust `u64 as i64`: reinterpretation of the bit pattern. -/
def u64AsI64 (v : Nat) : Int :=
  if v < 2 ^ 63 then (v : Int) else (v : Int) - (2 ^ 64 : Int)

/-- Wrapping `i64` subtraction (release-profile overflow semantics). -/
def i64WrapSub (a b : Int) : Int :=
  ((a - b + 2 ^ 63) % 2 ^ 64) - 2 ^ 63

/-- One iteration of the accumulation loop in
`State::get_financial_summary` (src/state.rs); the accumulator is
`(total_income, total_expenses, subscription_income)`, each a `u64`. -/
def finStep (fromTs toTs : Nat) (acc : Nat × Nat × Nat) (t : Transaction) :
    Nat × Nat × Nat :=
  if fromTs ≤ t.date ∧ t.date ≤ toTs then
    match t.transaction_type with
    | TransactionType.Income =>
      ((acc.1 + t.amount) % U64MOD,
       acc.2.1,
       if t.category = TransactionCategory.Subscription then
         (acc.2.2 + t.amount) % U64MOD
       else acc.2.2)
    | TransactionType.Expense =>
      (acc.1, (acc.2.1 + t.amount) % U64MOD, acc.2.2)
  else acc

/-- `State::get_financial_summary` (src/state.rs). -/
def State.get_financial_summary (s : State) (fromTs toTs : Nat) : FinancialSummary :=
  let r := (s.transactions.map Prod.snd).foldl (finStep fromTs toTs) (0, 0, 0)
  { total_income := r.1
    total_expenses := r.2.1
    net := i64WrapSub (u64AsI64 r.1) (u64AsI64 r.2.1)
    mrr := r.2.2 / 12
    period_start := fromTs
    period_end := toTs }

-- ===========================================================================
-- Feature flags
-- ===========================================================================

/-- The rollout hash in `State::is_feature_enabled` (src/state.rs):
`principal.as_slice().iter().fold(0u64, |acc, b| acc.wrapping_add(*b as u64))`. -/
def principalHash (p : Principal) : Nat :=
  p.foldl (fun acc b => (acc + b) % U64MOD) 0

/-- `State::is_feature_enabled` (src/state.rs): unknown key → false; disabled
→ false; non-empty allow-list → membership only; else percentage bucket test
`hash % 100 < pct`; else true. -/
def State.is_feature_enabled (s : State) (key : String) (principal : Principal) : Bool :=
  match mapLookup s.feature_flags key with
  | some flag =>
    if !flag.enabled then false
    else if !flag.allowed_principals.isEmpty then
      decide (principal ∈ flag.allowed_principals)
    else
      match flag.percentage with
      | some pct => decide (principalHash principal % 100 < pct)
      | none => true
  | none => false

-- ===========================================================================
-- Ownership migration
-- ===========================================================================

/-- The per-contact body of the contact loop in `State::migrate_ownership`
(src/state.rs). -/
def migrateContact (admin : Principal) (c : Contact) : Contact :=
  if c.owner_id = none then { c with owner_id := some admin } else c

/-- The per-deal body of the deal loop in `State::migrate_ownership`
(src/state.rs): both `owner_id` and `created_by` are defaulted. -/
def migrateDeal (admin : Principal) (d : Deal) : Deal :=
  let d := if d.owner_id = none then { d with owner_id := some admin } else d
  if d.created_by = none then { d with created_by := some admin } else d

/-- `State::migrate_ownership` (src/state.rs): with `first_admin =
admins.first()`, sets `owner_id` on owner-less contacts, and both `owner_id`
and `created_by` on deals where the respective field is `None`; no admins →
no change. -/
def State.migrate_ownership (s : State) : State :=
  match s.admins with
  | [] => s
  | admin :: _ =>
    { s with
        contacts := s.contacts.map (fun kv => (kv.1, migrateContact admin kv.2))
        deals := s.deals.map (fun kv => (kv.1, migrateDeal admin kv.2)) }

-- ===========================================================================
-- StableState (pre-suspension snapshot) and restore
-- ===========================================================================

/-- `StableState` (src/state.rs): the serializable pre-suspension snapshot.
It carries neither `rate_limit_buckets` nor `activity_log` nor any secondary
index. -/
structure StableState where
  controllers : List Principal
  admins : List Principal
  authorized_canisters : List (String × Principal)
  admin_permissions : List (Principal × List AdminPermission)
  contacts : List (Nat × Contact)
  next_contact_id : Nat
  deals : List (Nat × Deal)
  next_deal_id : Nat
  transactions : List (Nat × Transaction)
  next_transaction_id : Nat
  feature_flags : List (String × FeatureFlag)
  metrics_history : List MetricsSnapshot
  audit_log : List AuditLogEntry
  next_audit_log_id : Nat
deriving DecidableEq

/-- `impl From<&State> for StableState` (src/state.rs). -/
def StableState.ofState (s : State) : StableState where
  controllers := s.controllers
  admins := s.admins
  authorized_canisters := s.authorized_canisters
  admin_permissions := s.admin_permissions
  contacts := s.contacts
  next_contact_id := s.next_contact_id
  deals := s.deals
  next_deal_id := s.next_deal_id
  transactions := s.transactions
  next_transaction_id := s.next_transaction_id
  feature_flags := s.feature_flags
  metrics_history := s.metrics_history
  audit_log := s.audit_log
  next_audit_log_id := s.next_audit_log_id

/-- The email-index rebuild loop in `impl From<StableState> for State`. -/
def rebuildEmailIndex (contacts : List (Nat × Contact)) : List (String × Nat) :=
  contacts.foldl (fun m kv => mapInsert m (strToLower kv.2.email) kv.1) []

/-- The user-index rebuild loop in `impl From<StableState> for State`. -/
def rebuildUserIndex (contacts : List (Nat × Contact)) : List (String × Nat) :=
  contacts.foldl
    (fun m kv =>
      match kv.2.user_id with
      | some uid => mapInsert m uid kv.1
      | none => m) []

/-- The contact→deal index rebuild loop in `impl From<StableState> for State`. -/
def rebuildDealsIndex (deals : List (Nat × Deal)) : List (Nat × List Nat) :=
  deals.foldl (fun m kv => mapEntryPush m kv.2.contact_id kv.1) []

/-- `impl From<StableState> for State` (src/state.rs): fields absent from the
snapshot come from `Default` (empty), the secondary indexes are rebuilt from
the primary mappings, and an all-zero `next_audit_log_id` is bumped to 1. -/
def State.ofStable (st : StableState) : State :=
  let contacts := collectMap st.contacts
  let deals := collectMap st.deals
  { controllers := st.controllers
    admins := st.admins
    authorized_canisters := collectMap st.authorized_canisters
    admin_permissions := collectMap st.admin_permissions
    rate_limit_buckets := []
    contacts := contacts
    contacts_by_email := rebuildEmailIndex contacts
    contacts_by_user := rebuildUserIndex contacts
    next_contact_id := st.next_contact_id
    deals := deals
    deals_by_contact := rebuildDealsIndex deals
    next_deal_id := st.next_deal_id
    transactions := collectMap st.transactions
    next_transaction_id := st.next_transaction_id
    activity_log := []
    metrics_history := st.metrics_history
    feature_flags := collectMap st.feature_flags
    audit_log := st.audit_log
    next_audit_log_id := if st.next_audit_log_id = 0 then 1 else st.next_audit_log_id }

-- ===========================================================================
-- Association-map lemmas
-- ===========================================================================

theorem mapLookup_insert_self {K V : Type} [DecidableEq K]
    (m : List (K × V)) (k : K) (v : V) :
    mapLookup (mapInsert m k v) k = some v := by
  induction m with
  | nil => simp [mapInsert, mapLookup]
  | cons kv rest ih =>
    obtain ⟨k2, v2⟩ := kv
    by_cases h : k2 = k
    · simp [mapInsert, mapLookup, h]
    · simp [mapInsert, mapLookup, h, ih]

theorem mapLookup_insert_ne {K V : Type} [DecidableEq K]
    (m : List (K × V)) {k k' : K} (v : V) (h : k' ≠ k) :
    mapLookup (mapInsert m k v) k' = mapLookup m k' := by
  induction m with
  | nil => simp [mapInsert, mapLookup, Ne.symm h]
  | cons kv rest ih =>
    obtain ⟨k2, v2⟩ := kv
    by_cases h2 : k2 = k
    · subst h2
      simp [mapInsert, mapLookup, Ne.symm h]
    · by_cases h3 : k2 = k'
      · subst h3
        simp [mapInsert, mapLookup, h2]
      · simp [mapInsert, mapLookup, h2, h3, ih]

theorem mapLookup_remove_self {K V : Type} [DecidableEq K]
    (m : List (K × V)) (k : K) :
    mapLookup (mapRemove m k) k = none := by
  induction m with
  | nil => simp [mapRemove, mapLookup]
  | cons kv rest ih =>
    obtain ⟨k2, v2⟩ := kv
    by_cases h : k2 = k
    · simp [mapRemove, h, ih]
    · simp [mapRemove, mapLookup, h, ih]

theorem mapLookup_remove_ne {K V : Type} [DecidableEq K]
    (m : List (K × V)) {k k' : K} (h : k' ≠ k) :
    mapLookup (mapRemove m k) k' = mapLookup m k' := by
  induction m with
  | nil => simp [mapRemove]
  | cons kv rest ih =>
    obtain ⟨k2, v2⟩ := kv
    by_cases h2 : k2 = k
    · subst h2
      simp [mapRemove, mapLookup, Ne.symm h, ih]
    · by_cases h3 : k2 = k'
      · subst h3
        simp [mapRemove, mapLookup, h2]
      · simp [mapRemove, mapLookup, h2, h3, ih]

theorem mapLookup_append_some {K V : Type} [DecidableEq K]
    {m : List (K × V)} {k : K} {v : V} (l : List (K × V))
    (h : mapLookup m k = some v) :
    mapLookup (m ++ l) k = some v := by
  induction m with
  | nil => simp [mapLookup] at h
  | cons kv rest ih =>
    obtain ⟨k2, v2⟩ := kv
    by_cases h2 : k2 = k
    · simp [mapLookup, h2] at h ⊢
      exact h
    · simp [mapLookup, h2] at h ⊢
      exact ih h

theorem mapLookup_append_none {K V : Type} [DecidableEq K]
    {m : List (K × V)} {k : K} (l : List (K × V))
    (h : mapLookup m k = none) :
    mapLookup (m ++ l) k = mapLookup l k := by
  induction m with
  | nil => simp
  | cons kv rest ih =>
    obtain ⟨k2, v2⟩ := kv
    by_cases h2 : k2 = k
    · simp [mapLookup, h2] at h
    · simp [mapLookup, h2] at h ⊢
      exact ih h

theorem mapLookup_entryPush_self {K V : Type} [DecidableEq K]
    (m : List (K × List V)) (k : K) (x : V) :
    mapLookup (mapEntryPush m k x) k = some ((mapLookup m k).getD [] ++ [x]) := by
  unfold mapEntryPush
  cases h : mapLookup m k with
  | none =>
    simp [mapLookup_append_none _ h, mapLookup]
  | some l =>
    simp [mapLookup_insert_self, h]

theorem mapLookup_entryPush_ne {K V : Type} [DecidableEq K]
    (m : List (K × List V)) {k k' : K} (x : V) (h : k' ≠ k) :
    mapLookup (mapEntryPush m k x) k' = mapLookup m k' := by
  unfold mapEntryPush
  cases h2 : mapLookup m k with
  | none =>
    cases h3 : mapLookup m k' with
    | none =>
      rw [mapLookup_append_none _ h3]
      simp [mapLookup, Ne.symm h]
    | some l =>
      rw [mapLookup_append_some _ h3]
  | some l => exact mapLookup_insert_ne m _ h

theorem mapLookup_mapValues {K V W : Type} [DecidableEq K]
    (f : V → W) (m : List (K × V)) (k : K) :
    mapLookup (m.map (fun kv => (kv.1, f kv.2))) k = (mapLookup m k).map f := by
  induction m with
  | nil => simp [mapLookup]
  | cons kv rest ih =>
    obtain ⟨k2, v2⟩ := kv
    by_cases h : k2 = k
    · simp [mapLookup, h]
    · simp [mapLookup, h, ih]

-- ===========================================================================
-- C4 : idempotence of grant_permission / add_admin
-- ===========================================================================

/-- C4, counterexample: the claim says `grant_permission` applied twice yields
the same permission set as applied once; on the code, a repeated grant appends
a duplicate entry to the permission `Vec`, so the stored state differs. -/
theorem C4_counterexample :
    ((State.new.grant_permission [7] AdminPermission.ViewOwnContacts).grant_permission
        [7] AdminPermission.ViewOwnContacts).admin_permissions
      ≠ (State.new.grant_permission [7] AdminPermission.ViewOwnContacts).admin_permissions := by
  decide

/-- C4, amended: `add_admin` applied twice equals `add_admin` applied once,
but a second identical `grant_permission` appends a duplicate entry — the
stored permission list grows by one — while the set of permissions actually
held, as observed by `has_permission`, is unchanged. -/
theorem C4_amended :
    (∀ (s : State) (p : Principal), (s.add_admin p).add_admin p = s.add_admin p) ∧
    (∀ (s : State) (p : Principal) (perm : AdminPermission),
      ((mapLookup ((s.grant_permission p perm).grant_permission p perm).admin_permissions p).getD []).length
        = ((mapLookup (s.grant_permission p perm).admin_permissions p).getD []).length + 1 ∧
      ∀ (q : Principal) (x : AdminPermission),
        ((s.grant_permission p perm).grant_permission p perm).has_permission q x
          = (s.grant_permission p perm).has_permission q x) := by
  constructor
  · intro s p
    unfold State.add_admin
    by_cases h : p ∈ s.admins
    · simp [h]
    · simp [h]
  · intro s p perm
    have h1 : mapLookup (s.grant_permission p perm).admin_permissions p
        = some ((mapLookup s.admin_permissions p).getD [] ++ [perm]) := by
      unfold State.grant_permission
      exact mapLookup_entryPush_self _ _ _
    have h2 : mapLookup ((s.grant_permission p perm).grant_permission p perm).admin_permissions p
        = some (((mapLookup s.admin_permissions p).getD [] ++ [perm]) ++ [perm]) := by
      unfold State.grant_permission
      rw [mapLookup_entryPush_self]
      unfold State.grant_permission at h1
      rw [h1]
      simp
    constructor
    · rw [h1, h2]
      simp
    · intro q x
      unfold State.has_permission
      by_cases hq : q ∈ s.controllers
      · simp [State.grant_permission, hq]
      · simp only [State.grant_permission, hq, if_false]
        simp only [State.grant_permission] at h1 h2
        by_cases hqp : q = p
        · subst hqp
          rw [h2, h1]
          have hiff : (x ∈ ((mapLookup s.admin_permissions q).getD [] ++ [perm]) ++ [perm])
              ↔ (x ∈ (mapLookup s.admin_permissions q).getD [] ++ [perm]) := by
            simp only [List.mem_append, List.mem_singleton]
            tauto
          exact decide_eq_decide.mpr hiff
        · rw [mapLookup_entryPush_ne _ _ hqp, mapLookup_entryPush_ne _ _ hqp]

-- ===========================================================================
-- C5 : the pre-suspension snapshot and the activity log
-- ===========================================================================

/-- C5, counterexample: the claim says the snapshot includes the activity log;
on the code, `StableState` carries no `activity_log` field, so a round trip
through the snapshot empties a non-empty activity log. -/
theorem C5_counterexample :
    (State.ofStable (StableState.ofState
        { State.new with
            activity_log := [{ user_id := "u", action := "login", metadata := none, timestamp := 5 }] })).activity_log
      ≠ ({ State.new with
            activity_log := [{ user_id := "u", action := "login", metadata := none, timestamp := 5 }] } : State).activity_log := by
  decide

/-- C5, amended: the snapshot projection excludes both the rate-limit buckets
and the activity log: for every state, serializing and restoring yields a
state whose activity log and rate-limit buckets are both empty, while the
audit log and metrics history are preserved exactly. -/
theorem C5_amended :
    ∀ s : State,
      (State.ofStable (StableState.ofState s)).activity_log = [] ∧
      (State.ofStable (StableState.ofState s)).rate_limit_buckets = [] ∧
      (State.ofStable (StableState.ofState s)).audit_log = s.audit_log ∧
      (State.ofStable (StableState.ofState s)).metrics_history = s.metrics_history := by
  intro s
  exact ⟨rfl, rfl, rfl, rfl⟩

-- ===========================================================================
-- C3 : feature-flag percentage rollout hash
-- ===========================================================================

theorem foldl_wrap_add (M : Nat) :
    ∀ (l : List Nat) (a : Nat),
      l.foldl (fun acc b => (acc + b) % M) (a % M) = (a + l.sum) % M := by
  intro l
  induction l with
  | nil => intro a; simp
  | cons b t ih =>
    intro a
    simp only [List.foldl_cons, List.sum_cons]
    rw [Nat.mod_add_mod, ih (a + b), Nat.add_assoc]

theorem principalHash_eq_sum (p : Principal) : principalHash p = p.sum % U64MOD := by
  have h := foldl_wrap_add U64MOD p 0
  simpa [principalHash] using h

/-- C3, counterexample: the claim hashes the identity as
`(sum of bytes mod 256) mod 100`; the code folds the bytes into a `u64` with
`wrapping_add` and takes `mod 100` directly, with no `mod 256` step.  For the
identity with bytes `[200, 200]` (byte sum 400) and a 10 percent rollout the
code yields bucket `400 mod 100 = 0` and enables the flag, while the claimed
formula yields bucket `(400 mod 256) mod 100 = 44` and would disable it. -/
theorem C3_counterexample :
    ({ State.new with
        feature_flags := [("f",
          { key := "f", enabled := true, description := none, percentage := some 10,
            allowed_principals := [], updated_at := 0 })] } : State).is_feature_enabled
        "f" [200, 200] = true
      ∧ ¬ ((200 + 200) % 256 % 100 < 10) := by
  decide

/-- C3, amended: for an enabled flag with an empty allow-list and percentage
`p`, `is_feature_enabled` returns true exactly when the sum of the identity's
bytes, reduced modulo `2 ^ 64` (the `u64` `wrapping_add` fold — there is no
intermediate `mod 256`), taken modulo 100, is below `p`; the result is a pure
function of the flag configuration and the identity's bytes, so the same
identity always falls in the same bucket. -/
theorem C3_amended :
    ∀ (s : State) (key : String) (flag : FeatureFlag) (p : Principal) (pct : Nat),
      mapLookup s.feature_flags key = some flag →
      flag.enabled = true →
      flag.allowed_principals = [] →
      flag.percentage = some pct →
      (s.is_feature_enabled key p = true ↔ p.sum % U64MOD % 100 < pct) := by
  intro s key flag p pct hlook hen hallow hpct
  unfold State.is_feature_enabled
  rw [hlook]
  simp [hen, hallow, hpct, principalHash_eq_sum]

/-- C3, witness: the amended theorem applied to a concrete flag at 7 percent
and the identity `[3]`. -/
theorem C3_witness :
    (mapLookup ({ State.new with
        feature_flags := [("f",
          { key := "f", enabled := true, description := none, percentage := some 7,
            allowed_principals := [], updated_at := 0 })] } : State).feature_flags "f"
      = some { key := "f", enabled := true, description := none, percentage := some 7,
               allowed_principals := [], updated_at := 0 }) ∧
    (({ State.new with
        feature_flags := [("f",
          { key := "f", enabled := true, description := none, percentage := some 7,
            allowed_principals := [], updated_at := 0 })] } : State).is_feature_enabled
        "f" [3] = true
      ↔ List.sum [3] % U64MOD % 100 < 7) :=
  ⟨by decide,
   C3_amended _ "f"
     { key := "f", enabled := true, description := none, percentage := some 7,
       allowed_principals := [], updated_at := 0 }
     [3] 7 (by decide) rfl rfl rfl⟩

-- ===========================================================================
-- C8 : post-restore ownership migration
-- ===========================================================================

theorem migrate_eq_nil (s : State) (h : s.admins = []) : s.migrate_ownership = s := by
  unfold State.migrate_ownership
  rw [h]

theorem migrate_eq_cons (s : State) (admin : Principal) (rest : List Principal)
    (h : s.admins = admin :: rest) :
    s.migrate_ownership =
      { s with
          contacts := s.contacts.map (fun kv => (kv.1, migrateContact admin kv.2))
          deals := s.deals.map (fun kv => (kv.1, migrateDeal admin kv.2)) } := by
  unfold State.migrate_ownership
  rw [h]

theorem migrate_contacts_eq (s : State) (admin : Principal) (rest : List Principal)
    (h : s.admins = admin :: rest) :
    s.migrate_ownership.contacts
      = s.contacts.map (fun kv => (kv.1, migrateContact admin kv.2)) := by
  unfold State.migrate_ownership
  rw [h]

theorem migrate_deals_eq (s : State) (admin : Principal) (rest : List Principal)
    (h : s.admins = admin :: rest) :
    s.migrate_ownership.deals
      = s.deals.map (fun kv => (kv.1, migrateDeal admin kv.2)) := by
  unfold State.migrate_ownership
  rw [h]

theorem migrate_admins (s : State) : s.migrate_ownership.admins = s.admins := by
  rcases h : s.admins with _ | ⟨a, t⟩
  · rw [migrate_eq_nil s h]
    exact h
  · rw [migrate_eq_cons s a t h]
    exact h

theorem migrateContact_idem (admin : Principal) (c : Contact) :
    migrateContact admin (migrateContact admin c) = migrateContact admin c := by
  unfold migrateContact
  by_cases h : c.owner_id = none <;> simp [h]

theorem migrateDeal_idem (admin : Principal) (d : Deal) :
    migrateDeal admin (migrateDeal admin d) = migrateDeal admin d := by
  unfold migrateDeal
  cases hown : d.owner_id <;> cases hcr : d.created_by <;> simp [hown, hcr]

theorem map_pair_idem {A B : Type} (g : B → B) (hg : ∀ b, g (g b) = g b)
    (l : List (A × B)) :
    (l.map (fun kv => (kv.1, g kv.2))).map (fun kv => (kv.1, g kv.2))
      = l.map (fun kv => (kv.1, g kv.2)) := by
  rw [List.map_map]
  apply List.map_congr_left
  intro kv _
  simp [Function.comp, hg]

theorem migrate_idem (s : State) :
    s.migrate_ownership.migrate_ownership = s.migrate_ownership := by
  cases h : s.admins with
  | nil => rw [migrate_eq_nil s h, migrate_eq_nil s h]
  | cons admin rest =>
    have h1 := migrate_eq_cons s admin rest h
    have hadm : s.migrate_ownership.admins = admin :: rest := by
      rw [migrate_admins, h]
    have h2 := migrate_eq_cons s.migrate_ownership admin rest hadm
    rw [h1] at h2
    rw [h1, h2]
    dsimp only
    rw [map_pair_idem (migrateContact admin) (migrateContact_idem admin) s.contacts,
        map_pair_idem (migrateDeal admin) (migrateDeal_idem admin) s.deals]

/-- C8, counterexample: the claim says records that already have an owner are
left entirely unchanged; on the code, a deal with an owner but no recorded
creator still gets its `created_by` field rewritten by the migration. -/
theorem C8_counterexample :
    (({ State.new with
          admins := [[3]],
          deals := [(1, { id := 1, contact_id := 1, name := "d", value := none,
                          stage := DealStage.Lead, notes := none,
                          expected_close_date := none, owner_id := some [9],
                          created_by := none, created_at := 0, updated_at := 0 })] } :
        State).migrate_ownership.deals
        ≠ [(1, { id := 1, contact_id := 1, name := "d", value := none,
                 stage := DealStage.Lead, notes := none, expected_close_date := none,
                 owner_id := some [9], created_by := none,
                 created_at := 0, updated_at := 0 })])
    ∧ (some [9] : Option Principal) ≠ none := by
  decide

/-- C8, amended: when at least one admin exists, the migration assigns the
first admin as owner to every contact and deal whose `owner_id` is `None`,
and additionally as creator to every deal whose `created_by` is `None`,
preserving all remaining fields; with no admins it changes nothing; and
running it a second time changes nothing. -/
theorem C8_amended :
    ∀ s : State,
      s.migrate_ownership.migrate_ownership = s.migrate_ownership ∧
      (s.admins = [] → s.migrate_ownership = s) ∧
      ∀ (admin : Principal) (rest : List Principal), s.admins = admin :: rest →
        s.migrate_ownership.admins = s.admins ∧
        (∀ (id : Nat) (c : Contact), mapLookup s.contacts id = some c →
          mapLookup s.migrate_ownership.contacts id =
            some (if c.owner_id = none then { c with owner_id := some admin } else c)) ∧
        (∀ (id : Nat) (d : Deal), mapLookup s.deals id = some d →
          ∃ d2, mapLookup s.migrate_ownership.deals id = some d2 ∧
            d2.owner_id = d.owner_id.or (some admin) ∧
            d2.created_by = d.created_by.or (some admin) ∧
            d2.id = d.id ∧ d2.contact_id = d.contact_id ∧ d2.name = d.name ∧
            d2.value = d.value ∧ d2.stage = d.stage ∧ d2.notes = d.notes ∧
            d2.expected_close_date = d.expected_close_date ∧
            d2.created_at = d.created_at ∧ d2.updated_at = d.updated_at) := by
  intro s
  refine ⟨migrate_idem s, migrate_eq_nil s, ?_⟩
  intro admin rest h
  refine ⟨migrate_admins s, ?_, ?_⟩
  · intro id c hc
    rw [migrate_contacts_eq s admin rest h, mapLookup_mapValues, hc]
    rfl
  · intro id d hd
    refine ⟨migrateDeal admin d, ?_, ?_⟩
    · rw [migrate_deals_eq s admin rest h, mapLookup_mapValues, hd]
      rfl
    · cases hown : d.owner_id <;> cases hcr : d.created_by <;>
        simp [migrateDeal, Option.or, hown, hcr]

/-- C8, witness: the amended theorem applied to a state with one admin `[3]`
and one owner-less contact. -/
theorem C8_witness :
    (({ State.new with
          admins := [[3]],
          contacts := [(1, { id := 1, user_id := none, email := "a@x", name := none,
                             company := none, job_title := none, interest_area := none,
                             source := ContactSource.Signup, notes := none,
                             status := ContactStatus.Active, owner_id := none,
                             team_id := none, created_at := 0, updated_at := 0 })] } :
        State).admins = [3] :: []) ∧
    mapLookup ({ State.new with
          admins := [[3]],
          contacts := [(1, { id := 1, user_id := none, email := "a@x", name := none,
                             company := none, job_title := none, interest_area := none,
                             source := ContactSource.Signup, notes := none,
                             status := ContactStatus.Active, owner_id := none,
                             team_id := none, created_at := 0, updated_at := 0 })] } :
        State).migrate_ownership.contacts 1 =
      some (if (none : Option Principal) = none then
              { ({ id := 1, user_id := none, email := "a@x", name := none,
                   company := none, job_title := none, interest_area := none,
                   source := ContactSource.Signup, notes := none,
                   status := ContactStatus.Active, owner_id := none,
                   team_id := none, created_at := 0, updated_at := 0 } : Contact)
                 with owner_id := some [3] }
            else { id := 1, user_id := none, email := "a@x", name := none,
                   company := none, job_title := none, interest_area := none,
                   source := ContactSource.Signup, notes := none,
                   status := ContactStatus.Active, owner_id := none,
                   team_id := none, created_at := 0, updated_at := 0 }) :=
  ⟨rfl,
   ((C8_amended _).2.2 [3] [] rfl).2.1 1
     { id := 1, user_id := none, email := "a@x", name := none,
       company := none, job_title := none, interest_area := none,
       source := ContactSource.Signup, notes := none,
       status := ContactStatus.Active, owner_id := none,
       team_id := none, created_at := 0, updated_at := 0 } (by decide)⟩

-- ===========================================================================
-- C1 : email-index consistency
-- ===========================================================================

/-- The email-index invariant: every contact in the primary mapping is
indexed under its lowercase email, pointing back at its own id. -/
def emailIndexOk (s : State) : Prop :=
  ∀ (id : Nat) (c : Contact), mapLookup s.contacts id = some c →
    mapLookup s.contacts_by_email (strToLower c.email) = some id

/-- C1, counterexample: the claim asserts id-lookup and lowercased-email
lookup agree after creating two contacts whose emails differ only in case;
on the code the second `create_contact` silently overwrites the shared
lowercase-email index entry, so the first contact's email lookup now returns
the second contact. -/
theorem C1_counterexample :
    ((State.new.create_contact
        { user_id := none, email := "A@x.com", name := none, company := none,
          job_title := none, interest_area := none, source := none, notes := none }
        [1] 10).1.create_contact
        { user_id := none, email := "a@x.com", name := none, company := none,
          job_title := none, interest_area := none, source := none, notes := none }
        [2] 20).1.get_contact 1
      ≠ ((State.new.create_contact
        { user_id := none, email := "A@x.com", name := none, company := none,
          job_title := none, interest_area := none, source := none, notes := none }
        [1] 10).1.create_contact
        { user_id := none, email := "a@x.com", name := none, company := none,
          job_title := none, interest_area := none, source := none, notes := none }
        [2] 20).1.get_contact_by_email "A@x.com" := by
  decide

/-- C1, amended: the email-index invariant holds initially and is preserved
by update, by delete, and by create **provided no live contact already has
the requested lowercase email** (creating a duplicate lowercase email breaks
it, per the counterexample); under the invariant, looking a contact up by id
and by its email yield the same record. -/
theorem C1_amended :
    emailIndexOk State.new ∧
    (∀ (s : State) (req : CreateContactRequest) (caller : Principal) (now : Nat),
      emailIndexOk s →
      (∀ (id : Nat) (c : Contact), mapLookup s.contacts id = some c →
        strToLower c.email ≠ strToLower req.email) →
      emailIndexOk (s.create_contact req caller now).1) ∧
    (∀ (s : State) (id : Nat) (na co jo ia no : Option String)
        (st : Option ContactStatus) (now : Nat),
      emailIndexOk s → emailIndexOk (s.update_contact id na co jo ia no st now).1) ∧
    (∀ (s : State) (id : Nat),
      emailIndexOk s → emailIndexOk (s.delete_contact id).1) ∧
    (∀ (s : State) (id : Nat) (c : Contact),
      emailIndexOk s → s.get_contact id = some c →
      s.get_contact_by_email c.email = some c) := by
  refine ⟨?_, ?_, ?_, ?_, ?_⟩
  · intro id c h
    simp [State.new, mapLookup] at h
  · intro s req caller now hok hfresh id c h
    unfold State.create_contact at h ⊢
    by_cases hid : id = s.next_contact_id
    · subst hid
      rw [mapLookup_insert_self] at h
      injection h with h
      subst h
      exact mapLookup_insert_self _ _ _
    · rw [mapLookup_insert_ne _ _ hid] at h
      rw [mapLookup_insert_ne _ _ (hfresh id c h)]
      exact hok id c h
  · intro s id na co jo ia no st now hok
    unfold State.update_contact
    cases hl : mapLookup s.contacts id with
    | none => exact hok
    | some c0 =>
      intro id2 c2 h2
      dsimp only at h2
      by_cases hid : id2 = id
      · subst hid
        rw [mapLookup_insert_self] at h2
        injection h2 with h2
        subst h2
        have hmail : (applyContactUpdate c0 na co jo ia no st now).email = c0.email := by
          unfold applyContactUpdate
          cases na <;> cases co <;> cases jo <;> cases ia <;> cases no <;> cases st <;> rfl
        rw [hmail]
        exact hok id2 c0 hl
      · rw [mapLookup_insert_ne _ _ hid] at h2
        exact hok id2 c2 h2
  · intro s id hok
    unfold State.delete_contact
    cases hl : mapLookup s.contacts id with
    | none => exact hok
    | some c0 =>
      intro id2 c2 h2
      dsimp only at h2
      by_cases hid : id2 = id
      · subst hid
        rw [mapLookup_remove_self] at h2
        exact absurd h2 (by simp)
      · rw [mapLookup_remove_ne _ hid] at h2
        have hkey : strToLower c2.email ≠ strToLower c0.email := by
          intro hkeq
          have h3 := hok id2 c2 h2
          have h4 := hok id c0 hl
          rw [hkeq, h4] at h3
          injection h3 with h3
          exact hid h3.symm
        dsimp only
        rw [mapLookup_remove_ne _ hkey]
        exact hok id2 c2 h2
  · intro s id c hok h
    unfold State.get_contact_by_email
    rw [hok id c h]
    exact h

/-- C1, witness: creating one contact in the empty store preserves the
invariant, and the created contact is then reachable identically by id and
by email. -/
theorem C1_witness :
    emailIndexOk ((State.new.create_contact
        { user_id := none, email := "Ann@Example.com", name := none, company := none,
          job_title := none, interest_area := none, source := none, notes := none }
        [1] 10).1) ∧
    (State.new.create_contact
        { user_id := none, email := "Ann@Example.com", name := none, company := none,
          job_title := none, interest_area := none, source := none, notes := none }
        [1] 10).1.get_contact_by_email "Ann@Example.com"
      = (State.new.create_contact
        { user_id := none, email := "Ann@Example.com", name := none, company := none,
          job_title := none, interest_area := none, source := none, notes := none }
        [1] 10).1.get_contact 1 := by
  have hok : emailIndexOk ((State.new.create_contact
      { user_id := none, email := "Ann@Example.com", name := none, company := none,
        job_title := none, interest_area := none, source := none, notes := none }
      [1] 10).1) :=
    C1_amended.2.1 State.new _ [1] 10 C1_amended.1
      (by intro id c h; simp [State.new, mapLookup] at h)
  refine ⟨hok, ?_⟩
  have h5 := C1_amended.2.2.2.2 _ 1
    ((State.new.create_contact
        { user_id := none, email := "Ann@Example.com", name := none, company := none,
          job_title := none, interest_area := none, source := none, notes := none }
        [1] 10).2) hok (by decide)
  rw [show (State.new.create_contact
        { user_id := none, email := "Ann@Example.com", name := none, company := none,
          job_title := none, interest_area := none, source := none, notes := none }
        [1] 10).2.email = "Ann@Example.com" from rfl] at h5
  rw [h5]
  decide

-- ===========================================================================
-- C10 : partial updates set but never clear, and never touch identity fields
-- ===========================================================================

theorem applyContactUpdate_eq (c : Contact)
    (na co jo ia no : Option String) (st : Option ContactStatus) (now : Nat) :
    applyContactUpdate c na co jo ia no st now =
      { c with
          name := na.or c.name
          company := co.or c.company
          job_title := jo.or c.job_title
          interest_area := ia.or c.interest_area
          notes := no.or c.notes
          status := st.getD c.status
          updated_at := now } := by
  unfold applyContactUpdate
  cases na <;> cases co <;> cases jo <;> cases ia <;> cases no <;> cases st <;> rfl

theorem applyDealUpdate_eq (d : Deal) (na : Option String) (v : Option Nat)
    (st : Option DealStage) (no : Option String) (ecd : Option Nat) (now : Nat) :
    applyDealUpdate d na v st no ecd now =
      { d with
          name := na.getD d.name
          value := v.or d.value
          stage := st.getD d.stage
          notes := no.or d.notes
          expected_close_date := ecd.or d.expected_close_date
          updated_at := now } := by
  unfold applyDealUpdate
  cases na <;> cases v <;> cases st <;> cases no <;> cases ecd <;> rfl

theorem or_isSome {α : Type} (a b : Option α) (hb : b.isSome) : (a.or b).isSome := by
  cases a <;> simp [Option.or, hb]

/-- C10: a `Some` field in an update request overwrites the corresponding
field and a `None` leaves it untouched, so an optional field holding a value
still holds a value after any update; the record's identity fields (id,
email, external-user reference, owner, creator, created_at, and for deals the
contact reference) are never modified; `updated_at` is always rewritten to
the current time. -/
theorem C10_theorem :
    (∀ (s : State) (id : Nat) (na co jo ia no : Option String)
        (st : Option ContactStatus) (now : Nat) (c : Contact),
      mapLookup s.contacts id = some c →
      ∃ c2, (s.update_contact id na co jo ia no st now).2 = some c2 ∧
        mapLookup (s.update_contact id na co jo ia no st now).1.contacts id = some c2 ∧
        c2.id = c.id ∧ c2.email = c.email ∧ c2.user_id = c.user_id ∧
        c2.owner_id = c.owner_id ∧ c2.created_at = c.created_at ∧
        c2.source = c.source ∧ c2.team_id = c.team_id ∧
        (c.name.isSome → c2.name.isSome) ∧ (na = none → c2.name = c.name) ∧
        (c.company.isSome → c2.company.isSome) ∧ (co = none → c2.company = c.company) ∧
        (c.job_title.isSome → c2.job_title.isSome) ∧ (jo = none → c2.job_title = c.job_title) ∧
        (c.interest_area.isSome → c2.interest_area.isSome) ∧ (ia = none → c2.interest_area = c.interest_area) ∧
        (c.notes.isSome → c2.notes.isSome) ∧ (no = none → c2.notes = c.notes) ∧
        (st = none → c2.status = c.status) ∧
        c2.updated_at = now) ∧
    (∀ (s : State) (id : Nat) (na : Option String) (v : Option Nat)
        (st : Option DealStage) (no : Option String) (ecd : Option Nat)
        (now : Nat) (d : Deal),
      mapLookup s.deals id = some d →
      ∃ d2, (s.update_deal id na v st no ecd now).2 = some d2 ∧
        mapLookup (s.update_deal id na v st no ecd now).1.deals id = some d2 ∧
        d2.id = d.id ∧ d2.contact_id = d.contact_id ∧ d2.owner_id = d.owner_id ∧
        d2.created_by = d.created_by ∧ d2.created_at = d.created_at ∧
        (d.value.isSome → d2.value.isSome) ∧ (v = none → d2.value = d.value) ∧
        (d.notes.isSome → d2.notes.isSome) ∧ (no = none → d2.notes = d.notes) ∧
        (d.expected_close_date.isSome → d2.expected_close_date.isSome) ∧
        (ecd = none → d2.expected_close_date = d.expected_close_date) ∧
        (na = none → d2.name = d.name) ∧ (st = none → d2.stage = d.stage) ∧
        d2.updated_at = now) := by
  constructor
  · intro s id na co jo ia no st now c h
    unfold State.update_contact
    rw [h]
    refine ⟨applyContactUpdate c na co jo ia no st now, rfl,
            mapLookup_insert_self _ _ _, ?_⟩
    rw [applyContactUpdate_eq]
    refine ⟨rfl, rfl, rfl, rfl, rfl, rfl, rfl,
            fun hs => or_isSome na c.name hs, fun hna => by rw [hna]; rfl,
            fun hs => or_isSome co c.company hs, fun hco => by rw [hco]; rfl,
            fun hs => or_isSome jo c.job_title hs, fun hjo => by rw [hjo]; rfl,
            fun hs => or_isSome ia c.interest_area hs, fun hia => by rw [hia]; rfl,
            fun hs => or_isSome no c.notes hs, fun hno => by rw [hno]; rfl,
            fun hst => by rw [hst]; rfl,
            rfl⟩
  · intro s id na v st no ecd now d h
    unfold State.update_deal
    rw [h]
    refine ⟨applyDealUpdate d na v st no ecd now, rfl,
            mapLookup_insert_self _ _ _, ?_⟩
    rw [applyDealUpdate_eq]
    refine ⟨rfl, rfl, rfl, rfl, rfl,
            fun hs => or_isSome v d.value hs, fun hv => by rw [hv]; rfl,
            fun hs => or_isSome no d.notes hs, fun hno => by rw [hno]; rfl,
            fun hs => or_isSome ecd d.expected_close_date hs, fun hecd => by rw [hecd]; rfl,
            fun hna => by rw [hna]; rfl,
            fun hst => by rw [hst]; rfl,
            rfl⟩

/-- C10, witness: the contact half applied to a one-contact store with a
request that sets only the company, and the deal half applied to a one-deal
store with a request that sets only the stage. -/
theorem C10_witness :
    (mapLookup ({ State.new with
        contacts := [(1, { id := 1, user_id := some "u7", email := "w@x", name := some "W",
                           company := none, job_title := none, interest_area := none,
                           source := ContactSource.Referral, notes := none,
                           status := ContactStatus.Active, owner_id := some [4],
                           team_id := none, created_at := 3, updated_at := 3 })] } : State).contacts 1
      = some { id := 1, user_id := some "u7", email := "w@x", name := some "W",
               company := none, job_title := none, interest_area := none,
               source := ContactSource.Referral, notes := none,
               status := ContactStatus.Active, owner_id := some [4],
               team_id := none, created_at := 3, updated_at := 3 }) ∧
    (∃ c2, (({ State.new with
        contacts := [(1, { id := 1, user_id := some "u7", email := "w@x", name := some "W",
                           company := none, job_title := none, interest_area := none,
                           source := ContactSource.Referral, notes := none,
                           status := ContactStatus.Active, owner_id := some [4],
                           team_id := none, created_at := 3, updated_at := 3 })] } : State).update_contact
          1 none (some "Acme") none none none none 9).2 = some c2 ∧
      mapLookup (({ State.new with
        contacts := [(1, { id := 1, user_id := some "u7", email := "w@x", name := some "W",
                           company := none, job_title := none, interest_area := none,
                           source := ContactSource.Referral, notes := none,
                           status := ContactStatus.Active, owner_id := some [4],
                           team_id := none, created_at := 3, updated_at := 3 })] } : State).update_contact
          1 none (some "Acme") none none none none 9).1.contacts 1 = some c2 ∧
      c2.id = 1 ∧ c2.email = "w@x" ∧ c2.user_id = some "u7" ∧
      c2.owner_id = some [4] ∧ c2.created_at = 3 ∧
      c2.source = ContactSource.Referral ∧ c2.team_id = none ∧
      ((some "W" : Option String).isSome → c2.name.isSome) ∧
      ((none : Option String) = none → c2.name = some "W") ∧
      ((none : Option String).isSome → c2.company.isSome) ∧
      ((some "Acme" : Option String) = none → c2.company = none) ∧
      ((none : Option String).isSome → c2.job_title.isSome) ∧
      ((none : Option String) = none → c2.job_title = none) ∧
      ((none : Option String).isSome → c2.interest_area.isSome) ∧
      ((none : Option String) = none → c2.interest_area = none) ∧
      ((none : Option String).isSome → c2.notes.isSome) ∧
      ((none : Option String) = none → c2.notes = none) ∧
      ((none : Option ContactStatus) = none → c2.status = ContactStatus.Active) ∧
      c2.updated_at = 9) :=
  ⟨by decide,
   C10_theorem.1 _ 1 none (some "Acme") none none none none 9
     { id := 1, user_id := some "u7", email := "w@x", name := some "W",
       company := none, job_title := none, interest_area := none,
       source := ContactSource.Referral, notes := none,
       status := ContactStatus.Active, owner_id := some [4],
       team_id := none, created_at := 3, updated_at := 3 } (by decide)⟩

-- ===========================================================================
-- C2 / C9 : row-level security on paginated listings
-- ===========================================================================

theorem mem_applyContactFilter {filter : Option ContactFilter} {l : List Contact}
    {c : Contact} (h : c ∈ applyContactFilter filter l) : c ∈ l := by
  unfold applyContactFilter at h
  cases filter with
  | none => exact h
  | some f =>
    rcases f with ⟨fst, fsrc, fse⟩
    dsimp only at h
    cases fst <;> cases fsrc <;> cases fse <;>
      simp only [List.mem_filter] at h <;> tauto

theorem mem_applyDealFilter {filter : Option DealFilter} {l : List Deal}
    {d : Deal} (h : d ∈ applyDealFilter filter l) : d ∈ l := by
  unfold applyDealFilter at h
  cases filter with
  | none => exact h
  | some f =>
    rcases f with ⟨fst, fcid⟩
    dsimp only at h
    cases fst <;> cases fcid <;>
      simp only [List.mem_filter] at h <;> tauto

theorem get_contacts_owner {s : State} {filter : Option ContactFilter}
    {pag : PaginationParams} {caller : Principal}
    (hva : s.has_permission caller AdminPermission.ViewAllContacts = false) :
    ∀ c ∈ (s.get_contacts filter pag caller).items, c.owner_id = some caller := by
  intro c hc
  cases hvo : s.has_permission caller AdminPermission.ViewOwnContacts with
  | false =>
    simp [State.get_contacts, hva, hvo] at hc
  | true =>
    simp only [State.get_contacts, hva, hvo, Bool.not_false, Bool.not_true,
      Bool.and_false, Bool.true_and, Bool.and_self, if_false, if_true,
      Bool.false_eq_true, ite_false, ite_true] at hc
    have h2 := List.mem_of_mem_drop (List.mem_of_mem_take hc)
    have h3 := mem_applyContactFilter h2
    exact of_decide_eq_true (List.mem_filter.mp h3).2

theorem get_deals_owner {s : State} {filter : Option DealFilter}
    {pag : PaginationParams} {caller : Principal}
    (hva : s.has_permission caller AdminPermission.ViewAllDeals = false) :
    ∀ d ∈ (s.get_deals filter pag caller).items, d.owner_id = some caller := by
  intro d hd
  cases hvo : s.has_permission caller AdminPermission.ViewOwnDeals with
  | false =>
    simp [State.get_deals, hva, hvo] at hd
  | true =>
    simp only [State.get_deals, hva, hvo, Bool.not_false, Bool.not_true,
      Bool.and_false, Bool.true_and, Bool.and_self, if_false, if_true,
      Bool.false_eq_true, ite_false, ite_true] at hd
    have h2 := List.mem_of_mem_drop (List.mem_of_mem_take hd)
    have h3 := mem_applyDealFilter h2
    exact of_decide_eq_true (List.mem_filter.mp h3).2

/-- C2: for any filter and pagination, a caller holding neither
`ViewAllContacts` nor `ViewOwnContacts` (so in particular not a controller)
gets back an empty page, `total = 0`, with the requested offset and limit
(defaulted to 0 and 50) echoed; a caller holding `ViewOwnContacts` but not
`ViewAllContacts` never receives a contact whose owner differs from
themselves. -/
theorem C2_theorem :
    ∀ (s : State) (caller : Principal) (filter : Option ContactFilter)
      (pag : PaginationParams),
      (s.has_permission caller AdminPermission.ViewAllContacts = false →
       s.has_permission caller AdminPermission.ViewOwnContacts = false →
       s.get_contacts filter pag caller =
         { items := [], total := 0, offset := pag.offset.getD 0,
           limit := pag.limit.getD 50 }) ∧
      (s.has_permission caller AdminPermission.ViewAllContacts = false →
       s.has_permission caller AdminPermission.ViewOwnContacts = true →
       ∀ c ∈ (s.get_contacts filter pag caller).items, c.owner_id = some caller) := by
  intro s caller filter pag
  constructor
  · intro hva hvo
    simp [State.get_contacts, hva, hvo]
  · intro hva _
    exact get_contacts_owner hva

/-- C2, witness: a store with contacts owned by `[5]` and `[1]`; the caller
`[9]` with no grants gets the empty page with offset 2 and limit 7 echoed;
the caller `[1]` holding only `ViewOwnContacts` sees only contacts it owns. -/
theorem C2_witness :
    (({ State.new with
          contacts := [
            (1, { id := 1, user_id := none, email := "p@x", name := none, company := none,
                  job_title := none, interest_area := none, source := ContactSource.Signup,
                  notes := none, status := ContactStatus.Active, owner_id := some [5],
                  team_id := none, created_at := 0, updated_at := 0 }),
            (2, { id := 2, user_id := none, email := "q@x", name := none, company := none,
                  job_title := none, interest_area := none, source := ContactSource.Signup,
                  notes := none, status := ContactStatus.Active, owner_id := some [1],
                  team_id := none, created_at := 0, updated_at := 0 })],
          admin_permissions := [([1], [AdminPermission.ViewOwnContacts])] } : State).has_permission
        [9] AdminPermission.ViewAllContacts = false) ∧
    (({ State.new with
          contacts := [
            (1, { id := 1, user_id := none, email := "p@x", name := none, company := none,
                  job_title := none, interest_area := none, source := ContactSource.Signup,
                  notes := none, status := ContactStatus.Active, owner_id := some [5],
                  team_id := none, created_at := 0, updated_at := 0 }),
            (2, { id := 2, user_id := none, email := "q@x", name := none, company := none,
                  job_title := none, interest_area := none, source := ContactSource.Signup,
                  notes := none, status := ContactStatus.Active, owner_id := some [1],
                  team_id := none, created_at := 0, updated_at := 0 })],
          admin_permissions := [([1], [AdminPermission.ViewOwnContacts])] } : State).get_contacts
        none { offset := some 2, limit := some 7 } [9]
      = { items := [], total := 0, offset := 2, limit := 7 }) ∧
    ∀ c ∈ (({ State.new with
          contacts := [
            (1, { id := 1, user_id := none, email := "p@x", name := none, company := none,
                  job_title := none, interest_area := none, source := ContactSource.Signup,
                  notes := none, status := ContactStatus.Active, owner_id := some [5],
                  team_id := none, created_at := 0, updated_at := 0 }),
            (2, { id := 2, user_id := none, email := "q@x", name := none, company := none,
                  job_title := none, interest_area := none, source := ContactSource.Signup,
                  notes := none, status := ContactStatus.Active, owner_id := some [1],
                  team_id := none, created_at := 0, updated_at := 0 })],
          admin_permissions := [([1], [AdminPermission.ViewOwnContacts])] } : State).get_contacts
        none { offset := none, limit := none } [1]).items, c.owner_id = some [1] :=
  ⟨by decide,
   (C2_theorem _ [9] none { offset := some 2, limit := some 7 }).1 (by decide) (by decide),
   (C2_theorem _ [1] none { offset := none, limit := none }).2 (by decide) (by decide)⟩

/-- C9: a contact or deal whose owner field is `None` is never returned by a
paginated listing to a caller without the view-all capability (controllers
implicitly hold every capability, so such a caller is not a controller):
every returned record's owner equals the caller, hence is not `None`. -/
theorem C9_theorem :
    ∀ (s : State) (caller : Principal) (cf : Option ContactFilter)
      (df : Option DealFilter) (pagc pagd : PaginationParams),
      (s.has_permission caller AdminPermission.ViewAllContacts = false →
        ∀ c ∈ (s.get_contacts cf pagc caller).items, c.owner_id ≠ none) ∧
      (s.has_permission caller AdminPermission.ViewAllDeals = false →
        ∀ d ∈ (s.get_deals df pagd caller).items, d.owner_id ≠ none) := by
  intro s caller cf df pagc pagd
  constructor
  · intro hva c hc
    rw [get_contacts_owner hva c hc]
    simp
  · intro hva d hd
    rw [get_deals_owner hva d hd]
    simp

/-- C9, witness: a store holding an owner-less contact and an owner-less
deal; the caller `[1]` with only the view-own capabilities receives neither. -/
theorem C9_witness :
    (({ State.new with
          contacts := [(1, { id := 1, user_id := none, email := "p@x", name := none,
                             company := none, job_title := none, interest_area := none,
                             source := ContactSource.Signup, notes := none,
                             status := ContactStatus.Active, owner_id := none,
                             team_id := none, created_at := 0, updated_at := 0 })],
          deals := [(1, { id := 1, contact_id := 1, name := "d", value := none,
                          stage := DealStage.Lead, notes := none, expected_close_date := none,
                          owner_id := none, created_by := none, created_at := 0,
                          updated_at := 0 })],
          admin_permissions := [([1],
            [AdminPermission.ViewOwnContacts, AdminPermission.ViewOwnDeals])] } : State).has_permission
        [1] AdminPermission.ViewAllContacts = false) ∧
    (∀ c ∈ (({ State.new with
          contacts := [(1, { id := 1, user_id := none, email := "p@x", name := none,
                             company := none, job_title := none, interest_area := none,
                             source := ContactSource.Signup, notes := none,
                             status := ContactStatus.Active, owner_id := none,
                             team_id := none, created_at := 0, updated_at := 0 })],
          deals := [(1, { id := 1, contact_id := 1, name := "d", value := none,
                          stage := DealStage.Lead, notes := none, expected_close_date := none,
                          owner_id := none, created_by := none, created_at := 0,
                          updated_at := 0 })],
          admin_permissions := [([1],
            [AdminPermission.ViewOwnContacts, AdminPermission.ViewOwnDeals])] } : State).get_contacts
        none { offset := none, limit := none } [1]).items, c.owner_id ≠ none) ∧
    (∀ d ∈ (({ State.new with
          contacts := [(1, { id := 1, user_id := none, email := "p@x", name := none,
                             company := none, job_title := none, interest_area := none,
                             source := ContactSource.Signup, notes := none,
                             status := ContactStatus.Active, owner_id := none,
                             team_id := none, created_at := 0, updated_at := 0 })],
          deals := [(1, { id := 1, contact_id := 1, name := "d", value := none,
                          stage := DealStage.Lead, notes := none, expected_close_date := none,
                          owner_id := none, created_by := none, created_at := 0,
                          updated_at := 0 })],
          admin_permissions := [([1],
            [AdminPermission.ViewOwnContacts, AdminPermission.ViewOwnDeals])] } : State).get_deals
        none { offset := none, limit := none } [1]).items, d.owner_id ≠ none) :=
  ⟨by decide,
   (C9_theorem _ [1] none none { offset := none, limit := none }
      { offset := none, limit := none }).1 (by decide),
   (C9_theorem _ [1] none none { offset := none, limit := none }
      { offset := none, limit := none }).2 (by decide)⟩

-- ===========================================================================
-- C6 : sliding-window rate limiter
-- ===========================================================================

/-- C6: each rate-limit check first drops the caller's recorded timestamps
older than `now - 60s` (saturating), then rejects without recording when 100
or more remain, and otherwise records `now` and succeeds; hence a caller with
100 recorded in-window calls is rejected, and once every recorded timestamp
has fallen out of the window the next call succeeds and the stored bucket,
`[now]`, contains no expired entries. -/
theorem C6_theorem :
    ∀ (s : State) (caller : Principal) (now : Nat),
      (RATE_LIMIT_MAX_CALLS ≤ (((mapLookup s.rate_limit_buckets caller).getD []).filter
          (fun ts => decide (now - RATE_LIMIT_WINDOW_NS ≤ ts))).length →
        (s.check_rate_limit caller now).1 = Except.error
          "Rate limit exceeded: 100 calls per minute allowed, try again later" ∧
        mapLookup (s.check_rate_limit caller now).2.rate_limit_buckets caller =
          some (((mapLookup s.rate_limit_buckets caller).getD []).filter
            (fun ts => decide (now - RATE_LIMIT_WINDOW_NS ≤ ts)))) ∧
      ((((mapLookup s.rate_limit_buckets caller).getD []).filter
          (fun ts => decide (now - RATE_LIMIT_WINDOW_NS ≤ ts))).length < RATE_LIMIT_MAX_CALLS →
        (s.check_rate_limit caller now).1 = Except.ok () ∧
        mapLookup (s.check_rate_limit caller now).2.rate_limit_buckets caller =
          some ((((mapLookup s.rate_limit_buckets caller).getD []).filter
            (fun ts => decide (now - RATE_LIMIT_WINDOW_NS ≤ ts))) ++ [now])) ∧
      (((mapLookup s.rate_limit_buckets caller).getD []).length = RATE_LIMIT_MAX_CALLS →
       (∀ ts ∈ (mapLookup s.rate_limit_buckets caller).getD [],
          now - RATE_LIMIT_WINDOW_NS ≤ ts) →
        (s.check_rate_limit caller now).1 = Except.error
          "Rate limit exceeded: 100 calls per minute allowed, try again later") ∧
      ((∀ ts ∈ (mapLookup s.rate_limit_buckets caller).getD [],
          ts < now - RATE_LIMIT_WINDOW_NS) →
        (s.check_rate_limit caller now).1 = Except.ok () ∧
        mapLookup (s.check_rate_limit caller now).2.rate_limit_buckets caller = some [now] ∧
        ∀ ts ∈ ([now] : List Nat), now - RATE_LIMIT_WINDOW_NS ≤ ts) := by
  intro s caller now
  have part1 : RATE_LIMIT_MAX_CALLS ≤ (((mapLookup s.rate_limit_buckets caller).getD []).filter
      (fun ts => decide (now - RATE_LIMIT_WINDOW_NS ≤ ts))).length →
      (s.check_rate_limit caller now).1 = Except.error
        "Rate limit exceeded: 100 calls per minute allowed, try again later" ∧
      mapLookup (s.check_rate_limit caller now).2.rate_limit_buckets caller =
        some (((mapLookup s.rate_limit_buckets caller).getD []).filter
          (fun ts => decide (now - RATE_LIMIT_WINDOW_NS ≤ ts))) := by
    intro h
    simp only [State.check_rate_limit]
    rw [if_pos h]
    exact ⟨rfl, mapLookup_insert_self _ _ _⟩
  have part2 : (((mapLookup s.rate_limit_buckets caller).getD []).filter
      (fun ts => decide (now - RATE_LIMIT_WINDOW_NS ≤ ts))).length < RATE_LIMIT_MAX_CALLS →
      (s.check_rate_limit caller now).1 = Except.ok () ∧
      mapLookup (s.check_rate_limit caller now).2.rate_limit_buckets caller =
        some ((((mapLookup s.rate_limit_buckets caller).getD []).filter
          (fun ts => decide (now - RATE_LIMIT_WINDOW_NS ≤ ts))) ++ [now]) := by
    intro h
    simp only [State.check_rate_limit]
    rw [if_neg (by omega)]
    exact ⟨rfl, mapLookup_insert_self _ _ _⟩
  refine ⟨part1, part2, ?_, ?_⟩
  · intro h1 h2
    have hk : ((mapLookup s.rate_limit_buckets caller).getD []).filter
        (fun ts => decide (now - RATE_LIMIT_WINDOW_NS ≤ ts))
        = (mapLookup s.rate_limit_buckets caller).getD [] :=
      List.filter_eq_self.mpr (fun a ha => decide_eq_true (h2 a ha))
    exact (part1 (by rw [hk, h1])).1
  · intro h
    have hk : ((mapLookup s.rate_limit_buckets caller).getD []).filter
        (fun ts => decide (now - RATE_LIMIT_WINDOW_NS ≤ ts)) = [] := by
      rw [List.filter_eq_nil_iff]
      intro a ha
      simp only [decide_eq_true_eq]
      exact not_le.mpr (h a ha)

    have h2 := part2 (by rw [hk]; simp [RATE_LIMIT_MAX_CALLS])
    refine ⟨h2.1, ?_, ?_⟩
    · rw [h2.2, hk]
      simp
    · intro ts hts
      simp only [List.mem_singleton] at hts
      subst hts
      exact Nat.sub_le _ _

/-- C6, witness: the first call from the empty store succeeds and records the
timestamp; a caller with 100 in-window timestamps is rejected. -/
theorem C6_witness :
    ((State.new.check_rate_limit [2] 5).1 = Except.ok () ∧
      mapLookup (State.new.check_rate_limit [2] 5).2.rate_limit_buckets [2] = some [5]) ∧
    (({ State.new with
          rate_limit_buckets := [([2], List.replicate 100 50)] } : State).check_rate_limit
        [2] 60).1
      = Except.error "Rate limit exceeded: 100 calls per minute allowed, try again later" :=
  ⟨⟨((C6_theorem State.new [2] 5).2.1 (by decide)).1,
    ((C6_theorem State.new [2] 5).2.1 (by decide)).2⟩,
   (C6_theorem { State.new with
          rate_limit_buckets := [([2], List.replicate 100 50)] } [2] 60).2.2.1
     (by decide) (by decide)⟩

-- ===========================================================================
-- C7 : financial summary
-- ===========================================================================

/-- Sum of the amounts of the `Income` transactions dated in
`[fromTs, toTs]`. -/
def txIncome (fromTs toTs : Nat) (l : List Transaction) : Nat :=
  ((l.filter (fun t => decide ((fromTs ≤ t.date ∧ t.date ≤ toTs)
      ∧ t.transaction_type = TransactionType.Income))).map Transaction.amount).sum

/-- Sum of the amounts of the `Expense` transactions dated in
`[fromTs, toTs]`. -/
def txExpense (fromTs toTs : Nat) (l : List Transaction) : Nat :=
  ((l.filter (fun t => decide ((fromTs ≤ t.date ∧ t.date ≤ toTs)
      ∧ t.transaction_type = TransactionType.Expense))).map Transaction.amount).sum

/-- Sum of the amounts of the `Income` transactions with category
`Subscription` dated in `[fromTs, toTs]`. -/
def txSubscription (fromTs toTs : Nat) (l : List Transaction) : Nat :=
  ((l.filter (fun t => decide ((fromTs ≤ t.date ∧ t.date ≤ toTs)
      ∧ t.transaction_type = TransactionType.Income
      ∧ t.category = TransactionCategory.Subscription))).map Transaction.amount).sum

theorem txIncome_cons (fromTs toTs : Nat) (t : Transaction) (rest : List Transaction) :
    txIncome fromTs toTs (t :: rest) =
      (if (fromTs ≤ t.date ∧ t.date ≤ toTs) ∧ t.transaction_type = TransactionType.Income
       then t.amount else 0) + txIncome fromTs toTs rest := by
  unfold txIncome
  by_cases h : (fromTs ≤ t.date ∧ t.date ≤ toTs) ∧ t.transaction_type = TransactionType.Income
  · simp [List.filter_cons, h]
  · simp [List.filter_cons, h]

theorem txExpense_cons (fromTs toTs : Nat) (t : Transaction) (rest : List Transaction) :
    txExpense fromTs toTs (t :: rest) =
      (if (fromTs ≤ t.date ∧ t.date ≤ toTs) ∧ t.transaction_type = TransactionType.Expense
       then t.amount else 0) + txExpense fromTs toTs rest := by
  unfold txExpense
  by_cases h : (fromTs ≤ t.date ∧ t.date ≤ toTs) ∧ t.transaction_type = TransactionType.Expense
  · simp [List.filter_cons, h]
  · simp [List.filter_cons, h]

theorem txSubscription_cons (fromTs toTs : Nat) (t : Transaction) (rest : List Transaction) :
    txSubscription fromTs toTs (t :: rest) =
      (if (fromTs ≤ t.date ∧ t.date ≤ toTs) ∧ t.transaction_type = TransactionType.Income
          ∧ t.category = TransactionCategory.Subscription
       then t.amount else 0) + txSubscription fromTs toTs rest := by
  unfold txSubscription
  by_cases h : (fromTs ≤ t.date ∧ t.date ≤ toTs) ∧ t.transaction_type = TransactionType.Income
      ∧ t.category = TransactionCategory.Subscription
  · simp [List.filter_cons, h]
  · simp [List.filter_cons, h]

theorem U64MOD_pos : 0 < U64MOD := by
  unfold U64MOD
  positivity

theorem finStep_foldl (fromTs toTs : Nat) :
    ∀ (l : List Transaction) (a b c : Nat), a < U64MOD → b < U64MOD → c < U64MOD →
      l.foldl (finStep fromTs toTs) (a, b, c) =
        ((a + txIncome fromTs toTs l) % U64MOD,
         (b + txExpense fromTs toTs l) % U64MOD,
         (c + txSubscription fromTs toTs l) % U64MOD) := by
  intro l
  induction l with
  | nil =>
    intro a b c ha hb hc
    simp only [List.foldl_nil, txIncome, txExpense, txSubscription, List.filter_nil,
      List.map_nil, List.sum_nil, Nat.add_zero, Nat.mod_eq_of_lt ha,
      Nat.mod_eq_of_lt hb, Nat.mod_eq_of_lt hc]
  | cons t rest ih =>
    intro a b c ha hb hc
    simp only [List.foldl_cons]
    rw [txIncome_cons, txExpense_cons, txSubscription_cons]
    by_cases hr : fromTs ≤ t.date ∧ t.date ≤ toTs
    · cases htype : t.transaction_type with
      | Income =>
        by_cases hcat : t.category = TransactionCategory.Subscription
        · rw [show finStep fromTs toTs (a, b, c) t
              = ((a + t.amount) % U64MOD, b, (c + t.amount) % U64MOD) from by
            simp [finStep, hr, htype, hcat]]
          rw [ih _ _ _ (Nat.mod_lt _ U64MOD_pos) hb (Nat.mod_lt _ U64MOD_pos)]
          rw [Nat.mod_add_mod, Nat.mod_add_mod, Nat.add_assoc, Nat.add_assoc]
          simp [hr, htype, hcat]
        · rw [show finStep fromTs toTs (a, b, c) t
              = ((a + t.amount) % U64MOD, b, c) from by
            simp [finStep, hr, htype, hcat]]
          rw [ih _ _ _ (Nat.mod_lt _ U64MOD_pos) hb hc]
          rw [Nat.mod_add_mod, Nat.add_assoc]
          simp [hr, htype, hcat]
      | Expense =>
        rw [show finStep fromTs toTs (a, b, c) t
            = (a, (b + t.amount) % U64MOD, c) from by
          simp [finStep, hr, htype]]
        rw [ih _ _ _ ha (Nat.mod_lt _ U64MOD_pos) hc]
        rw [Nat.mod_add_mod, Nat.add_assoc]
        simp [hr, htype]
    · rw [show finStep fromTs toTs (a, b, c) t = (a, b, c) from by
        simp [finStep, hr]]
      rw [ih _ _ _ ha hb hc]
      simp [hr]

theorem i64WrapSub_eq (a b : Int) (ha : 0 ≤ a) (ha2 : a < 2 ^ 63)
    (hb : 0 ≤ b) (hb2 : b < 2 ^ 63) :
    i64WrapSub a b = a - b := by
  unfold i64WrapSub
  have hp : ((2 : Int) ^ 64) = 2 ^ 63 * 2 := by norm_num
  have h1 : 0 ≤ a - b + 2 ^ 63 := by omega
  have h2 : a - b + 2 ^ 63 < 2 ^ 64 := by omega
  rw [Int.emod_eq_of_lt h1 h2]
  omega

/-- C7: as long as the total transaction volume fits in an `i64` (no `u64`
wrap-around), the financial summary for `[fromTs, toTs]` sums exactly the
transactions dated in that inclusive range — `total_income` the `Income`
amounts, `total_expenses` the `Expense` amounts, `net` their signed
difference, `mrr` the `Subscription` income divided by 12 with integer
division — and echoes the period bounds; and the concrete five-transaction
scenario of the claim yields 35000 / 5000 / 30000 / 833. -/
theorem C7_theorem :
    (∀ (s : State) (fromTs toTs : Nat),
      ((s.transactions.map Prod.snd).map Transaction.amount).sum < 2 ^ 63 →
      (s.get_financial_summary fromTs toTs).total_income
          = txIncome fromTs toTs (s.transactions.map Prod.snd) ∧
        (s.get_financial_summary fromTs toTs).total_expenses
          = txExpense fromTs toTs (s.transactions.map Prod.snd) ∧
        (s.get_financial_summary fromTs toTs).net
          = (txIncome fromTs toTs (s.transactions.map Prod.snd) : Int)
            - (txExpense fromTs toTs (s.transactions.map Prod.snd) : Int) ∧
        (s.get_financial_summary fromTs toTs).mrr
          = txSubscription fromTs toTs (s.transactions.map Prod.snd) / 12 ∧
        (s.get_financial_summary fromTs toTs).period_start = fromTs ∧
        (s.get_financial_summary fromTs toTs).period_end = toTs) ∧
    ({ State.new with
        transactions := [
          (1, { id := 1, transaction_type := TransactionType.Income,
                category := TransactionCategory.Subscription, amount := 10000,
                currency := "USD", description := "a", reference := none,
                date := 50, created_at := 50 }),
          (2, { id := 2, transaction_type := TransactionType.Income,
                category := TransactionCategory.Donation, amount := 20000,
                currency := "USD", description := "b", reference := none,
                date := 50, created_at := 50 }),
          (3, { id := 3, transaction_type := TransactionType.Income,
                category := TransactionCategory.Service, amount := 5000,
                currency := "USD", description := "c", reference := none,
                date := 50, created_at := 50 }),
          (4, { id := 4, transaction_type := TransactionType.Expense,
                category := TransactionCategory.Infrastructure, amount := 3000,
                currency := "USD", description := "d", reference := none,
                date := 50, created_at := 50 }),
          (5, { id := 5, transaction_type := TransactionType.Expense,
                category := TransactionCategory.Marketing, amount := 2000,
                currency := "USD", description := "e", reference := none,
                date := 50, created_at := 50 })] } : State).get_financial_summary 0 100
      = { total_income := 35000, total_expenses := 5000, net := 30000, mrr := 833,
          period_start := 0, period_end := 100 } := by
  constructor
  · intro s fromTs toTs hsum
    have hIncLe : txIncome fromTs toTs (s.transactions.map Prod.snd)
        ≤ ((s.transactions.map Prod.snd).map Transaction.amount).sum := by
      unfold txIncome
      exact List.Sublist.sum_le_sum
        (List.Sublist.map Transaction.amount (List.filter_sublist _))
        (fun x _ => Nat.zero_le x)
    have hExpLe : txExpense fromTs toTs (s.transactions.map Prod.snd)
        ≤ ((s.transactions.map Prod.snd).map Transaction.amount).sum := by
      unfold txExpense
      exact List.Sublist.sum_le_sum
        (List.Sublist.map Transaction.amount (List.filter_sublist _))
        (fun x _ => Nat.zero_le x)
    have hSubLe : txSubscription fromTs toTs (s.transactions.map Prod.snd)
        ≤ ((s.transactions.map Prod.snd).map Transaction.amount).sum := by
      unfold txSubscription
      exact List.Sublist.sum_le_sum
        (List.Sublist.map Transaction.amount (List.filter_sublist _))
        (fun x _ => Nat.zero_le x)
    have h64 : (2 : Nat) ^ 63 < U64MOD := by
      unfold U64MOD
      norm_num
    have hIncM : txIncome fromTs toTs (s.transactions.map Prod.snd) < U64MOD :=
      lt_trans (Nat.lt_of_le_of_lt hIncLe hsum) h64
    have hExpM : txExpense fromTs toTs (s.transactions.map Prod.snd) < U64MOD :=
      lt_trans (Nat.lt_of_le_of_lt hExpLe hsum) h64
    have hSubM : txSubscription fromTs toTs (s.transactions.map Prod.snd) < U64MOD :=
      lt_trans (Nat.lt_of_le_of_lt hSubLe hsum) h64
    have hfold := finStep_foldl fromTs toTs (s.transactions.map Prod.snd)
      0 0 0 U64MOD_pos U64MOD_pos U64MOD_pos
    simp only [Nat.zero_add] at hfold
    unfold State.get_financial_summary
    rw [hfold]
    simp only [Nat.mod_eq_of_lt hIncM, Nat.mod_eq_of_lt hExpM, Nat.mod_eq_of_lt hSubM]
    refine ⟨by trivial, by trivial, ?_, by trivial, by trivial, by trivial⟩
    have hIncI : (txIncome fromTs toTs (s.transactions.map Prod.snd) : Int) < 2 ^ 63 := by
      exact_mod_cast Nat.lt_of_le_of_lt hIncLe hsum
    have hExpI : (txExpense fromTs toTs (s.transactions.map Prod.snd) : Int) < 2 ^ 63 := by
      exact_mod_cast Nat.lt_of_le_of_lt hExpLe hsum
    rw [show u64AsI64 (txIncome fromTs toTs (s.transactions.map Prod.snd))
        = (txIncome fromTs toTs (s.transactions.map Prod.snd) : Int) from by
      unfold u64AsI64
      rw [if_pos (by exact_mod_cast Nat.lt_of_le_of_lt hIncLe hsum)]]
    rw [show u64AsI64 (txExpense fromTs toTs (s.transactions.map Prod.snd))
        = (txExpense fromTs toTs (s.transactions.map Prod.snd) : Int) from by
      unfold u64AsI64
      rw [if_pos (by exact_mod_cast Nat.lt_of_le_of_lt hExpLe hsum)]]
    exact i64WrapSub_eq _ _ (Int.natCast_nonneg _) hIncI (Int.natCast_nonneg _) hExpI
  · decide

/-- C7, witness: the general half of the theorem applied to a two-transaction
store whose volume is far below `2 ^ 63`. -/
theorem C7_witness :
    (((({ State.new with
        transactions := [
          (1, { id := 1, transaction_type := TransactionType.Income,
                category := TransactionCategory.Subscription, amount := 2400,
                currency := "USD", description := "a", reference := none,
                date := 5, created_at := 5 }),
          (2, { id := 2, transaction_type := TransactionType.Expense,
                category := TransactionCategory.Legal, amount := 100,
                currency := "USD", description := "b", reference := none,
                date := 7, created_at := 7 })] } : State).transactions.map
        Prod.snd).map Transaction.amount).sum < 2 ^ 63) ∧
    (({ State.new with
        transactions := [
          (1, { id := 1, transaction_type := TransactionType.Income,
                category := TransactionCategory.Subscription, amount := 2400,
                currency := "USD", description := "a", reference := none,
                date := 5, created_at := 5 }),
          (2, { id := 2, transaction_type := TransactionType.Expense,
                category := TransactionCategory.Legal, amount := 100,
                currency := "USD", description := "b", reference := none,
                date := 7, created_at := 7 })] } : State).get_financial_summary 0 10).mrr
      = txSubscription 0 10
          (({ State.new with
              transactions := [
                (1, { id := 1, transaction_type := TransactionType.Income,
                      category := TransactionCategory.Subscription, amount := 2400,
                      currency := "USD", description := "a", reference := none,
                      date := 5, created_at := 5 }),
                (2, { id := 2, transaction_type := TransactionType.Expense,
                      category := TransactionCategory.Legal, amount := 100,
                      currency := "USD", description := "b", reference := none,
                      date := 7, created_at := 7 })] } : State).transactions.map Prod.snd)
          / 12 :=
  ⟨by decide,
   ((C7_theorem.1 { State.new with
        transactions := [
          (1, { id := 1, transaction_type := TransactionType.Income,
                category := TransactionCategory.Subscription, amount := 2400,
                currency := "USD", description := "a", reference := none,
                date := 5, created_at := 5 }),
          (2, { id := 2, transaction_type := TransactionType.Expense,
                category := TransactionCategory.Legal, amount := 100,
                currency := "USD", description := "b", reference := none,
                date := 7, created_at := 7 })] } 0 10 (by decide)).2.2.2).1⟩

end DaoAdmin
